import Mathlib

/-!
Verification of the resilient HeadHunter API access layer and the
polling/deduplication engine of the `hh_bot` repository.

The Python sources are shallowly embedded: HTTP traffic is represented by
an oracle `Nat → AttemptResult` giving, for each attempt index, either the
HTTP response received or the transport exception raised by that attempt;
the SQLite tables are represented by association lists; the retry loop of
`HeadHunterClient._request_with_retry` becomes structural recursion on the
number of remaining attempts, instrumented with the sleeps performed and
the number of HTTP calls made.
-/

namespace HHBot

/-- An HTTP response as seen by `hh_client.py`: the status code together
with the header and body fields this client inspects.  `retryAfter` is the
integer-parsed `Retry-After` header, `location` the `Location` header,
`description` the `description` field of the JSON body, `badArgs` the
`bad_arguments` list, `hasText` whether `response.text` is non-empty. -/
structure HttpResponse where
  status : Nat
  retryAfter : Option Nat := none
  location : Option String := none
  description : Option String := none
  badArgs : List (String × String) := []
  hasText : Bool := false
  deriving Repr, DecidableEq

/-- Transport-level failures raised by `requests`: `requests.exceptions.Timeout`
and other `requests.exceptions.RequestException`s (carrying the message). -/
inductive TransportError where
  | timeout
  | requestError (msg : String)
  deriving Repr, DecidableEq

/-- The outcome of one underlying `session.request` call. -/
inductive AttemptResult where
  | ok (r : HttpResponse)
  | exn (e : TransportError)
  deriving Repr, DecidableEq

/-- The constant `HeadHunterClient.MAX_RETRIES`. -/
def MAX_RETRIES : Nat := 3

/-- The constant `HeadHunterClient.RETRY_BACKOFF_BASE` (seconds). -/
def RETRY_BACKOFF_BASE : Nat := 2

/-- Result of `_request_with_retry`: the returned value (`Except.error e`
models re-raising the transport exception `e`; `Except.ok none` models the
Python function returning `None`), the sleeps performed (in order, in
seconds) and the number of underlying HTTP calls made. -/
structure RetryResult where
  result : Except TransportError (Option HttpResponse)
  sleeps : List Nat
  calls : Nat
  deriving Repr

/-- The loop body of `HeadHunterClient._request_with_retry`, recursing on
the number of remaining attempts; `attempt` is the 0-based index of the
current attempt and `attempt + remaining = MAX_RETRIES` at every call.
On 429 the code sleeps (`Retry-After`, default `base ^ (attempt+1)`) and
retries even on the final attempt; on 5xx it sleeps and retries except on
the final attempt, where the response is returned as-is; on a transport
exception it records it as `last_exception` and retries (no sleep on the
final attempt); any other response is returned immediately.  When the loop
ends, the last exception (if any) is re-raised, else `None` is returned. -/
def rwrAux (oracle : Nat → AttemptResult) :
    Nat → Nat → Option TransportError → List Nat → Nat → RetryResult
  | _, 0, lastExn, sleeps, calls =>
      match lastExn with
      | some e => ⟨Except.error e, sleeps, calls⟩
      | none => ⟨Except.ok none, sleeps, calls⟩
  | attempt, remaining + 1, lastExn, sleeps, calls =>
      match oracle attempt with
      | AttemptResult.ok resp =>
          if resp.status = 429 then
            let retryAfter := resp.retryAfter.getD (RETRY_BACKOFF_BASE ^ (attempt + 1))
            rwrAux oracle (attempt + 1) remaining lastExn (sleeps ++ [retryAfter]) (calls + 1)
          else if 500 ≤ resp.status then
            if attempt < MAX_RETRIES - 1 then
              rwrAux oracle (attempt + 1) remaining lastExn
                (sleeps ++ [RETRY_BACKOFF_BASE ^ (attempt + 1)]) (calls + 1)
            else
              ⟨Except.ok (some resp), sleeps, calls + 1⟩
          else
            ⟨Except.ok (some resp), sleeps, calls + 1⟩
      | AttemptResult.exn e =>
          if attempt < MAX_RETRIES - 1 then
            rwrAux oracle (attempt + 1) remaining (some e)
              (sleeps ++ [RETRY_BACKOFF_BASE ^ (attempt + 1)]) (calls + 1)
          else
            rwrAux oracle (attempt + 1) remaining (some e) sleeps (calls + 1)

/-- The method `HeadHunterClient._request_with_retry`, driven by the attempt oracle. -/
def requestWithRetry (oracle : Nat → AttemptResult) : RetryResult :=
  rwrAux oracle 0 MAX_RETRIES none [] 0

/-- An attempt outcome on which the retry loop continues when it occurs
before the final attempt: a 429 or 5xx response, or a transport
exception. -/
def nonTerminal (a : AttemptResult) : Prop :=
  match a with
  | AttemptResult.ok r => r.status = 429 ∨ 500 ≤ r.status
  | AttemptResult.exn _ => True

/-! ## Token lifecycle (`HeadHunterClient.refresh_access_token`) -/

/-- The credential-relevant state of a `HeadHunterClient`: the access and
refresh tokens (where `none` models a Python-falsy value) and the
`Authorization` header installed on the session. -/
structure TokenState where
  accessToken : Option String
  refreshToken : Option String
  authHeader : Option String
  deriving Repr, DecidableEq

/-- The OAuth client credentials from `config` (`none` models unset/empty). -/
structure OAuthConfig where
  clientId : Option String
  clientSecret : Option String
  deriving Repr, DecidableEq

/-- Outcome of the `POST https://hh.ru/oauth/token` call: either a response
with a status and a JSON body carrying optional `access_token` /
`refresh_token` fields, or a raised exception. -/
inductive TokenNet where
  | resp (status : Nat) (accessTok : Option String) (refreshTok : Option String)
  | exn
  deriving Repr, DecidableEq

/-- Result of `refresh_access_token`: the returned boolean, the resulting
client state, and the number of network calls performed. -/
structure RefreshResult where
  ok : Bool
  st : TokenState
  networkCalls : Nat
  deriving Repr, DecidableEq

/-- The method `HeadHunterClient.refresh_access_token`.  Missing refresh token or
missing OAuth client credentials return `False` with no network call; a
200 response installs the new tokens and rewrites the session header;
any other response or an exception returns `False`. -/
def refreshAccessToken (cfg : OAuthConfig) (st : TokenState) (net : TokenNet) :
    RefreshResult :=
  match st.refreshToken with
  | none => ⟨false, st, 0⟩
  | some _ =>
      if cfg.clientId = none ∨ cfg.clientSecret = none then
        ⟨false, st, 0⟩
      else
        match net with
        | TokenNet.exn => ⟨false, st, 1⟩
        | TokenNet.resp status newAccess newRefresh =>
            if status = 200 then
              ⟨true,
               { accessToken := newAccess,
                 refreshToken := newRefresh,
                 authHeader := some ("Bearer " ++ newAccess.getD "None") },
               1⟩
            else
              ⟨false, st, 1⟩

/-! ## Apply flow (`HeadHunterClient.apply_to_vacancy`) -/

/-- The distinct user-facing messages produced by `apply_to_vacancy`,
one constructor per message string in the source. -/
inductive ApplyMsg where
  | sent
  | alreadyApplied
  | tokenExpired
  | noToken
  | noResume
  | noResponse
  | accessError (desc : String)
  | badRequest (desc : String)
  | rateLimit
  | otherCode (code : Nat)
  | timeoutMsg
  | connError (msg : String)
  deriving Repr, DecidableEq

/-- The dict returned by `apply_to_vacancy`, instrumented with the number
of HTTP calls that reached the `/negotiations` endpoint, the number of
`refresh_access_token` invocations, and the number of requests issued
through `_request_with_retry`. -/
structure ApplyOutcome where
  success : Bool
  message : ApplyMsg
  negotiationUrl : Option String := none
  negotiationCalls : Nat := 0
  refreshCalls : Nat := 0
  applyIssues : Nat := 0
  deriving Repr, DecidableEq

/-- The `description` used by the 403 branch:
`error_data.get('description', 'Недостаточно прав')` where `error_data`
is `{}` when `response.text` is empty. -/
def desc403 (resp : HttpResponse) : String :=
  if resp.hasText then resp.description.getD "Недостаточно прав" else "Недостаточно прав"

/-- The `error_msg` computed by the 400 branch: the `description`
(defaulting to `'Неверный запрос'`) extended with the name/description
pairs of any `bad_arguments`. -/
def desc400 (resp : HttpResponse) : String :=
  let base := if resp.hasText then resp.description.getD "Неверный запрос" else "Неверный запрос"
  if resp.badArgs = [] then base
  else
    base ++ ": " ++ String.intercalate ", "
      (resp.badArgs.map (fun a => a.1 ++ ": " ++ a.2))

/-- Classification of the retried request in the 401 branch of
`apply_to_vacancy` (after a successful token refresh).  The guards are
`response and response.status_code in [200, 201]` and
`response and response.status_code == 409`: a `requests.Response` is
truthy exactly when `response.ok` holds, i.e. when its status is below
400.  So 200/201 succeed (with the `Location` header as
`negotiation_url`); the 409 arm requires a truthy response of status
409, which is impossible, so a 409 — like every other 4xx/5xx response
and an absent response — falls through to the token-expired message.  A
transport exception raised by the retry escapes to the outer `except`
clauses. -/
def classifyRetry (r2 : RetryResult) (negCalls : Nat) : ApplyOutcome :=
  match r2.result with
  | Except.error TransportError.timeout =>
      { success := false, message := ApplyMsg.timeoutMsg,
        negotiationCalls := negCalls + r2.calls, refreshCalls := 1, applyIssues := 2 }
  | Except.error (TransportError.requestError m) =>
      { success := false, message := ApplyMsg.connError m,
        negotiationCalls := negCalls + r2.calls, refreshCalls := 1, applyIssues := 2 }
  | Except.ok none =>
      { success := false, message := ApplyMsg.tokenExpired,
        negotiationCalls := negCalls + r2.calls, refreshCalls := 1, applyIssues := 2 }
  | Except.ok (some resp2) =>
      if resp2.status < 400 ∧ (resp2.status = 200 ∨ resp2.status = 201) then
        { success := true, message := ApplyMsg.sent,
          negotiationUrl := some (resp2.location.getD ""),
          negotiationCalls := negCalls + r2.calls, refreshCalls := 1, applyIssues := 2 }
      else if resp2.status < 400 ∧ resp2.status = 409 then
        { success := true, message := ApplyMsg.alreadyApplied,
          negotiationCalls := negCalls + r2.calls, refreshCalls := 1, applyIssues := 2 }
      else
        { success := false, message := ApplyMsg.tokenExpired,
          negotiationCalls := negCalls + r2.calls, refreshCalls := 1, applyIssues := 2 }

/-- The method `HeadHunterClient.apply_to_vacancy`.  `accessToken`/`resumeId` are the
credential and resume id (`none` = Python-falsy); `oracle1` drives the
first `_request_with_retry`, `refreshOk` is the outcome of
`refresh_access_token` in the 401 branch, and `oracle2` drives the retried
request after a successful refresh.  The early `if not response:` return
fires whenever the response is Python-falsy: `requests.Response.__bool__`
is `self.ok`, which is false for every status in 400–599, so any
4xx/5xx response takes the same early return as `None` and the
409/401/403/400/429 branches below it are unreachable for those
statuses. -/
def applyToVacancy (accessToken : Option String) (resumeId : Option String)
    (oracle1 : Nat → AttemptResult) (refreshOk : Bool)
    (oracle2 : Nat → AttemptResult) : ApplyOutcome :=
  match accessToken with
  | none => { success := false, message := ApplyMsg.noToken }
  | some _ =>
      match resumeId with
      | none => { success := false, message := ApplyMsg.noResume }
      | some _ =>
          let r1 := requestWithRetry oracle1
          match r1.result with
          | Except.error TransportError.timeout =>
              { success := false, message := ApplyMsg.timeoutMsg,
                negotiationCalls := r1.calls, applyIssues := 1 }
          | Except.error (TransportError.requestError m) =>
              { success := false, message := ApplyMsg.connError m,
                negotiationCalls := r1.calls, applyIssues := 1 }
          | Except.ok none =>
              { success := false, message := ApplyMsg.noResponse,
                negotiationCalls := r1.calls, applyIssues := 1 }
          | Except.ok (some resp) =>
              if 400 ≤ resp.status then
                { success := false, message := ApplyMsg.noResponse,
                  negotiationCalls := r1.calls, applyIssues := 1 }
              else if resp.status = 201 then
                { success := true, message := ApplyMsg.sent,
                  negotiationUrl := some (resp.location.getD ""),
                  negotiationCalls := r1.calls, applyIssues := 1 }
              else if resp.status = 200 then
                { success := true, message := ApplyMsg.sent,
                  negotiationCalls := r1.calls, applyIssues := 1 }
              else if resp.status = 409 then
                { success := true, message := ApplyMsg.alreadyApplied,
                  negotiationCalls := r1.calls, applyIssues := 1 }
              else if resp.status = 401 then
                if refreshOk then
                  classifyRetry (requestWithRetry oracle2) r1.calls
                else
                  { success := false, message := ApplyMsg.tokenExpired,
                    negotiationCalls := r1.calls, refreshCalls := 1, applyIssues := 1 }
              else if resp.status = 403 then
                { success := false, message := ApplyMsg.accessError (desc403 resp),
                  negotiationCalls := r1.calls, applyIssues := 1 }
              else if resp.status = 400 then
                { success := false, message := ApplyMsg.badRequest (desc400 resp),
                  negotiationCalls := r1.calls, applyIssues := 1 }
              else if resp.status = 429 then
                { success := false, message := ApplyMsg.rateLimit,
                  negotiationCalls := r1.calls, applyIssues := 1 }
              else
                { success := false, message := ApplyMsg.otherCode resp.status,
                  negotiationCalls := r1.calls, applyIssues := 1 }

/-! ## Deduplication store (`storage/database.py`)

SQLite tables keyed by `chat_id` (resp. `(chat_id, vacancy_id)`) are
embedded as association lists; the `TEXT` column holding JSON-encoded
keyword lists is represented by its decoded value (`json.loads` after
`json.dumps` is the identity on lists of strings). -/

/-- One row of the `preferences` table, with the column defaults of the
schema in `Database.init_database`.  `keywords` is the decoded JSON
column (`none` = SQL NULL). -/
structure PrefRow where
  role_domain : String := "IT"
  remote_only : Bool := false
  city : String := "Москва"
  area_id : Int := 1
  keywords : Option (List String) := none
  role_level : Option String := none
  salary_min : Int := 0
  schedule : String := "remote"
  employment : String := "full"
  experience : String := "between3And6"
  auto_apply : Bool := false
  prompt : Option String := none
  deriving Repr, DecidableEq

/-- The dict returned by `Database.get_preferences` (keywords decoded to a
list). -/
structure Preferences where
  chat_id : Int
  role_domain : String
  remote_only : Bool
  city : String
  area_id : Int
  keywords : List String
  role_level : Option String
  salary_min : Int
  schedule : String
  employment : String
  experience : String
  auto_apply : Bool
  prompt : Option String
  deriving Repr, DecidableEq

/-- The `preferences` table: `chat_id` is its PRIMARY KEY, so lookups take
the first (unique) matching row. -/
abbrev PrefDB : Type := List (Int × PrefRow)

/-- The query `SELECT * FROM preferences WHERE chat_id = ?` (first match). -/
def prefLookup : PrefDB → Int → Option PrefRow
  | [], _ => none
  | (c, row) :: rest, cid => if c = cid then some row else prefLookup rest cid

/-- The literal defaults dict returned by `Database.get_preferences` when
no row exists for the subscriber. -/
def defaultPreferences (cid : Int) : Preferences :=
  { chat_id := cid, role_domain := "IT", remote_only := false, city := "Москва",
    area_id := 1, keywords := [], role_level := none, salary_min := 0,
    schedule := "remote", employment := "full", experience := "between3And6",
    auto_apply := false, prompt := none }

/-- The method `Database.get_preferences`: returns the stored row (with `keywords`
decoded, NULL/empty decoding to `[]`), or the defaults dict when no row
exists — it never raises for an unknown subscriber. -/
def getPreferences (db : PrefDB) (cid : Int) : Preferences :=
  match prefLookup db cid with
  | some row =>
      { chat_id := cid, role_domain := row.role_domain, remote_only := row.remote_only,
        city := row.city, area_id := row.area_id, keywords := row.keywords.getD [],
        role_level := row.role_level, salary_min := row.salary_min,
        schedule := row.schedule, employment := row.employment,
        experience := row.experience, auto_apply := row.auto_apply,
        prompt := row.prompt }
  | none => defaultPreferences cid

/-- The `**kwargs` of `Database.update_preferences`: each field is
optionally supplied. -/
structure PrefUpdate where
  role_domain : Option String := none
  remote_only : Option Bool := none
  city : Option String := none
  area_id : Option Int := none
  keywords : Option (List String) := none
  role_level : Option String := none
  salary_min : Option Int := none
  schedule : Option String := none
  employment : Option String := none
  experience : Option String := none
  auto_apply : Option Bool := none
  prompt : Option String := none
  deriving Repr, DecidableEq

/-- The effect of the generated `UPDATE preferences SET field = ?, ...`
on one row: only the supplied fields change. -/
def applyUpdate (row : PrefRow) (u : PrefUpdate) : PrefRow :=
  { role_domain := u.role_domain.getD row.role_domain,
    remote_only := u.remote_only.getD row.remote_only,
    city := u.city.getD row.city,
    area_id := u.area_id.getD row.area_id,
    keywords := match u.keywords with | some ks => some ks | none => row.keywords,
    role_level := match u.role_level with | some l => some l | none => row.role_level,
    salary_min := u.salary_min.getD row.salary_min,
    schedule := u.schedule.getD row.schedule,
    employment := u.employment.getD row.employment,
    experience := u.experience.getD row.experience,
    auto_apply := u.auto_apply.getD row.auto_apply,
    prompt := match u.prompt with | some p => some p | none => row.prompt }

/-- The method `Database.update_preferences`: a SQL `UPDATE ... WHERE chat_id = ?`
rewrites exactly the rows whose key matches — it inserts nothing, so for
an unknown subscriber it updates zero rows. -/
def updatePreferences (db : PrefDB) (cid : Int) (u : PrefUpdate) : PrefDB :=
  db.map (fun p => if p.1 = cid then (p.1, applyUpdate p.2 u) else p)

/-- The `users` table: `chat_id` (PRIMARY KEY) and `username`. -/
abbrev UserDB : Type := List (Int × Option String)

/-- The query `SELECT * FROM users WHERE chat_id = ?` (first match). -/
def userLookup : UserDB → Int → Option (Option String)
  | [], _ => none
  | (c, u) :: rest, cid => if c = cid then some u else userLookup rest cid

/-- The database state relevant to `get_or_create_user`. -/
structure DBState where
  users : UserDB
  prefs : PrefDB
  deriving Repr

/-- The method `Database.get_or_create_user`, with a failure oracle `failAt` naming
the step (0 = the SELECT, 1 = `INSERT INTO users`, 2 = `INSERT INTO
preferences`, 3 = the re-SELECT, 4 = the commit in `get_connection`) that
raises, if any.  The connection-scoped transaction of `get_connection`
commits on normal exit and rolls back on any exception, so an error
leaves the state exactly as it was. -/
def getOrCreateUser (failAt : Option Nat) (s : DBState) (cid : Int)
    (uname : Option String) : DBState × Except Unit (Int × Option String) :=
  if failAt = some 0 then (s, Except.error ()) else
  match userLookup s.users cid with
  | some uname0 =>
      if failAt = some 4 then (s, Except.error ())
      else (s, Except.ok (cid, uname0))
  | none =>
      if failAt = some 1 then (s, Except.error ()) else
      if failAt = some 2 then (s, Except.error ()) else
      if failAt = some 3 then (s, Except.error ()) else
      if failAt = some 4 then (s, Except.error ()) else
      ({ users := s.users ++ [(cid, uname)],
         prefs := s.prefs ++ [(cid, ({} : PrefRow))] },
       Except.ok (cid, uname))

/-- Every row of the `users` table has a matching `preferences` row. -/
def usersHavePrefs (s : DBState) : Prop :=
  ∀ p ∈ s.users, (prefLookup s.prefs p.1).isSome = true

/-! ## Seen / processed posting sets

`Database.mark_vacancy_processed` / `is_vacancy_processed` are in
`storage/database.py`: an `INSERT OR IGNORE` into a table whose PRIMARY
KEY is `(chat_id, vacancy_id)`, and an existence `SELECT`. -/

/-- A `(chat_id, vacancy_id)` membership table. -/
abbrev PairDB : Type := List (Int × String)

/-- The statement `INSERT OR IGNORE INTO processed_vacancies (chat_id, vacancy_id)`:
a duplicate insert is a no-op, not an error
(`Database.mark_vacancy_processed`). -/
def markVacancyProcessed (db : PairDB) (cid : Int) (vid : String) : PairDB :=
  if (cid, vid) ∈ db then db else db ++ [(cid, vid)]

/-- The method `Database.is_vacancy_processed`: existence check. -/
def isVacancyProcessed (db : PairDB) (cid : Int) (vid : String) : Bool :=
  decide ((cid, vid) ∈ db)

/-- Modelled from the spec: `Database.mark_vacancy_sent` is absent from
`storage/database.py` (only its callers in `bot.py` and the tests name
it); per the spec's SeenPosting invariant — "at most one row per
(subscriber, posting) pair — insertion is idempotent (duplicate insert is
a no-op, not an error)" — it is the same `INSERT OR IGNORE` shape as the
in-source `mark_vacancy_processed`, over the independent seen table. -/
def markVacancySent (db : PairDB) (cid : Int) (vid : String) : PairDB :=
  if (cid, vid) ∈ db then db else db ++ [(cid, vid)]

/-- Modelled from the spec: `Database.is_vacancy_sent` (seen-set
membership check), absent from `storage/database.py`; the existence
check mirroring `is_vacancy_processed`. -/
def isVacancySent (db : PairDB) (cid : Int) (vid : String) : Bool :=
  decide ((cid, vid) ∈ db)

/-- Replay a sequence of seen-set inserts. -/
def runMarks (db : PairDB) (ops : List (Int × String)) : PairDB :=
  ops.foldl (fun d p => markVacancySent d p.1 p.2) db

/-- Number of rows for a given `(chat_id, vacancy_id)` pair. -/
def rowCount (db : PairDB) (cid : Int) (vid : String) : Nat :=
  db.countP (fun p => p = (cid, vid))

/-! ## Polling engine (`bot.py`) -/

/-- A posting as handled by the dedup logic of the poll (only `v['id']`
is consulted). -/
structure Vacancy where
  id : String
  deriving Repr, DecidableEq

/-- The deduplication portion of `JobBot.check_user_vacancies`
(bot.py lines 164–179): filter the search results against the seen set
via `is_vacancy_sent`, then dispatch each remaining posting and mark it
via `mark_vacancy_sent`.  Returns the dispatched postings and the updated
seen set. -/
def checkUserVacancies (db : PairDB) (cid : Int) (vacancies : List Vacancy) :
    List Vacancy × PairDB :=
  let newVacancies := vacancies.filter (fun v => !(isVacancySent db cid v.id))
  (newVacancies, newVacancies.foldl (fun d v => markVacancySent d cid v.id) db)

/-- The per-subscriber loop of `JobBot.check_all_users_vacancies`
(bot.py lines 124–129): each subscriber's check runs inside its own
`try/except`, so a failure is logged (recorded as `some e`) and the loop
continues with the next subscriber. -/
def checkAllUsersVacancies (users : List Int) (f : Int → Except String Unit) :
    List (Int × Option String) :=
  match users with
  | [] => []
  | u :: rest =>
      match f u with
      | Except.ok _ => (u, none) :: checkAllUsersVacancies rest f
      | Except.error e => (u, some e) :: checkAllUsersVacancies rest f

/-! ## Step lemmas for the retry loop -/

theorem rwrAux_429 (oracle : Nat → AttemptResult) (attempt n : Nat)
    (lastExn : Option TransportError) (sleeps : List Nat) (calls : Nat)
    (r : HttpResponse) (h : oracle attempt = AttemptResult.ok r)
    (h429 : r.status = 429) :
    rwrAux oracle attempt (n + 1) lastExn sleeps calls =
      rwrAux oracle (attempt + 1) n lastExn
        (sleeps ++ [r.retryAfter.getD (RETRY_BACKOFF_BASE ^ (attempt + 1))]) (calls + 1) := by
  simp only [rwrAux, h, h429, if_true]

theorem rwrAux_5xx_retry (oracle : Nat → AttemptResult) (attempt n : Nat)
    (lastExn : Option TransportError) (sleeps : List Nat) (calls : Nat)
    (r : HttpResponse) (h : oracle attempt = AttemptResult.ok r)
    (h5 : 500 ≤ r.status) (hlt : attempt < MAX_RETRIES - 1) :
    rwrAux oracle attempt (n + 1) lastExn sleeps calls =
      rwrAux oracle (attempt + 1) n lastExn
        (sleeps ++ [RETRY_BACKOFF_BASE ^ (attempt + 1)]) (calls + 1) := by
  have h429 : ¬ r.status = 429 := by omega
  simp only [rwrAux, h, h429, if_false, h5, if_true, hlt]

theorem rwrAux_5xx_final (oracle : Nat → AttemptResult) (attempt n : Nat)
    (lastExn : Option TransportError) (sleeps : List Nat) (calls : Nat)
    (r : HttpResponse) (h : oracle attempt = AttemptResult.ok r)
    (h5 : 500 ≤ r.status) (hge : ¬ attempt < MAX_RETRIES - 1) :
    rwrAux oracle attempt (n + 1) lastExn sleeps calls =
      ⟨Except.ok (some r), sleeps, calls + 1⟩ := by
  have h429 : ¬ r.status = 429 := by omega
  simp only [rwrAux, h, h429, if_false, h5, if_true, hge]

theorem rwrAux_terminal (oracle : Nat → AttemptResult) (attempt n : Nat)
    (lastExn : Option TransportError) (sleeps : List Nat) (calls : Nat)
    (r : HttpResponse) (h : oracle attempt = AttemptResult.ok r)
    (h429 : ¬ r.status = 429) (h5 : ¬ 500 ≤ r.status) :
    rwrAux oracle attempt (n + 1) lastExn sleeps calls =
      ⟨Except.ok (some r), sleeps, calls + 1⟩ := by
  simp only [rwrAux, h, h429, if_false, h5]

theorem rwrAux_exn_retry (oracle : Nat → AttemptResult) (attempt n : Nat)
    (lastExn : Option TransportError) (sleeps : List Nat) (calls : Nat)
    (e : TransportError) (h : oracle attempt = AttemptResult.exn e)
    (hlt : attempt < MAX_RETRIES - 1) :
    rwrAux oracle attempt (n + 1) lastExn sleeps calls =
      rwrAux oracle (attempt + 1) n (some e)
        (sleeps ++ [RETRY_BACKOFF_BASE ^ (attempt + 1)]) (calls + 1) := by
  simp only [rwrAux, h, hlt, if_true]

theorem rwrAux_exn_final (oracle : Nat → AttemptResult) (attempt n : Nat)
    (lastExn : Option TransportError) (sleeps : List Nat) (calls : Nat)
    (e : TransportError) (h : oracle attempt = AttemptResult.exn e)
    (hge : ¬ attempt < MAX_RETRIES - 1) :
    rwrAux oracle attempt (n + 1) lastExn sleeps calls =
      rwrAux oracle (attempt + 1) n (some e) sleeps (calls + 1) := by
  simp only [rwrAux, h, hge, if_false]

theorem rwrAux_zero (oracle : Nat → AttemptResult) (attempt : Nat)
    (lastExn : Option TransportError) (sleeps : List Nat) (calls : Nat) :
    rwrAux oracle attempt 0 lastExn sleeps calls =
      ⟨match lastExn with
        | some e => Except.error e
        | none => Except.ok none, sleeps, calls⟩ := by
  cases lastExn <;> simp only [rwrAux]

/-- The retry loop never makes more HTTP calls than it has attempts left. -/
theorem rwrAux_calls_le (oracle : Nat → AttemptResult) :
    ∀ (remaining attempt : Nat) (lastExn : Option TransportError)
      (sleeps : List Nat) (calls : Nat),
      (rwrAux oracle attempt remaining lastExn sleeps calls).calls ≤ calls + remaining := by
  intro remaining
  induction remaining with
  | zero =>
      intro attempt lastExn sleeps calls
      cases lastExn <;> simp [rwrAux]
  | succ n ih =>
      intro attempt lastExn sleeps calls
      simp only [rwrAux]
      cases h : oracle attempt with
      | ok r =>
          by_cases h429 : r.status = 429
          · simp only [h429, if_true]
            calc (rwrAux oracle (attempt + 1) n lastExn _ (calls + 1)).calls
                ≤ calls + 1 + n := ih _ _ _ _
              _ ≤ calls + (n + 1) := by omega
          · simp only [h429, if_false]
            by_cases h5 : 500 ≤ r.status
            · simp only [h5, if_true]
              by_cases hlt : attempt < MAX_RETRIES - 1
              · simp only [hlt, if_true]
                calc (rwrAux oracle (attempt + 1) n lastExn _ (calls + 1)).calls
                    ≤ calls + 1 + n := ih _ _ _ _
                  _ ≤ calls + (n + 1) := by omega
              · simp only [hlt, if_false]
                omega
            · simp only [h5, if_false]
              omega
      | exn e =>
          by_cases hlt : attempt < MAX_RETRIES - 1
          · simp only [hlt, if_true]
            calc (rwrAux oracle (attempt + 1) n (some e) _ (calls + 1)).calls
                ≤ calls + 1 + n := ih _ _ _ _
              _ ≤ calls + (n + 1) := by omega
          · simp only [hlt, if_false]
            calc (rwrAux oracle (attempt + 1) n (some e) sleeps (calls + 1)).calls
                ≤ calls + 1 + n := ih _ _ _ _
              _ ≤ calls + (n + 1) := by omega

/-- The function `_request_with_retry` makes at most `MAX_RETRIES` HTTP calls. -/
theorem requestWithRetry_calls_le (oracle : Nat → AttemptResult) :
    (requestWithRetry oracle).calls ≤ MAX_RETRIES := by
  have := rwrAux_calls_le oracle MAX_RETRIES 0 none [] 0
  simpa [requestWithRetry] using this

/-- A response on which the loop continues (before the final attempt)
yields one more call, one sleep, and an unchanged `last_exception`. -/
theorem rwrAux_resp_continue (oracle : Nat → AttemptResult) (attempt n : Nat)
    (lastExn : Option TransportError) (sleeps : List Nat) (calls : Nat)
    (r : HttpResponse) (h : oracle attempt = AttemptResult.ok r)
    (hr : r.status = 429 ∨ 500 ≤ r.status) (hlt : attempt < MAX_RETRIES - 1) :
    ∃ sl, rwrAux oracle attempt (n + 1) lastExn sleeps calls =
      rwrAux oracle (attempt + 1) n lastExn (sleeps ++ [sl]) (calls + 1) := by
  rcases hr with h429 | h5
  · exact ⟨_, rwrAux_429 oracle attempt n lastExn sleeps calls r h h429⟩
  · exact ⟨_, rwrAux_5xx_retry oracle attempt n lastExn sleeps calls r h h5 hlt⟩

/-- Any non-terminal attempt outcome before the final attempt yields one
more call, one sleep, and some (possibly updated) `last_exception`. -/
theorem rwrAux_nonterminal_step (oracle : Nat → AttemptResult) (attempt n : Nat)
    (lastExn : Option TransportError) (sleeps : List Nat) (calls : Nat)
    (h : nonTerminal (oracle attempt)) (hlt : attempt < MAX_RETRIES - 1) :
    ∃ sl lastExn2, rwrAux oracle attempt (n + 1) lastExn sleeps calls =
      rwrAux oracle (attempt + 1) n lastExn2 (sleeps ++ [sl]) (calls + 1) := by
  cases ha : oracle attempt with
  | ok r =>
      rw [ha] at h
      obtain ⟨sl, hsl⟩ :=
        rwrAux_resp_continue oracle attempt n lastExn sleeps calls r ha h hlt
      exact ⟨sl, lastExn, hsl⟩
  | exn e =>
      exact ⟨_, some e, rwrAux_exn_retry oracle attempt n lastExn sleeps calls e ha hlt⟩

/-- C1: the claim as frozen is false on the code at a concrete input.
When every one of the three attempts receives a 429 response, the 429
branch of `_request_with_retry` sleeps and `continue`s even on the final
attempt, the loop exits with `last_exception = None`, and the function
returns `None` — not the last failing response and not a re-raised
exception. -/
theorem C1_counterexample :
    (requestWithRetry fun _ =>
        AttemptResult.ok ⟨429, some 1, none, none, [], false⟩).result = Except.ok none ∧
    (requestWithRetry fun _ =>
        AttemptResult.ok ⟨429, some 1, none, none, [], false⟩).calls = 3 :=
  ⟨rfl, rfl⟩

/-- C1 (amended): a call through `_request_with_retry` that exhausts its
3 attempts yields (a) an absent (`None`) result when every attempt
received a retryable response and the final one was a 429 — in
particular when every attempt received a 429; (b) the last failing
response when the final attempt received a 5xx response; (c) the last
transport exception re-raised when every attempt raised one.  In all
three cases exactly 3 HTTP calls were made. -/
theorem C1_theorem :
    (∀ (oracle : Nat → AttemptResult) (r0 r1 r2 : HttpResponse),
        oracle 0 = AttemptResult.ok r0 → (r0.status = 429 ∨ 500 ≤ r0.status) →
        oracle 1 = AttemptResult.ok r1 → (r1.status = 429 ∨ 500 ≤ r1.status) →
        oracle 2 = AttemptResult.ok r2 → r2.status = 429 →
        (requestWithRetry oracle).result = Except.ok none ∧
        (requestWithRetry oracle).calls = 3) ∧
    (∀ (oracle : Nat → AttemptResult) (r2 : HttpResponse),
        nonTerminal (oracle 0) → nonTerminal (oracle 1) →
        oracle 2 = AttemptResult.ok r2 → 500 ≤ r2.status →
        (requestWithRetry oracle).result = Except.ok (some r2) ∧
        (requestWithRetry oracle).calls = 3) ∧
    (∀ (oracle : Nat → AttemptResult) (e0 e1 e2 : TransportError),
        oracle 0 = AttemptResult.exn e0 → oracle 1 = AttemptResult.exn e1 →
        oracle 2 = AttemptResult.exn e2 →
        (requestWithRetry oracle).result = Except.error e2 ∧
        (requestWithRetry oracle).calls = 3) := by
  refine ⟨?_, ?_, ?_⟩
  · intro oracle r0 r1 r2 ho0 hr0 ho1 hr1 ho2 hr2
    obtain ⟨s0, e0⟩ := rwrAux_resp_continue oracle 0 (1 + 1) none [] 0 r0 ho0 hr0 (by decide)
    obtain ⟨s1, e1⟩ :=
      rwrAux_resp_continue oracle 1 (0 + 1) none ([] ++ [s0]) (0 + 1) r1 ho1 hr1 (by decide)
    have base : requestWithRetry oracle = rwrAux oracle 0 (2 + 1) none [] 0 := rfl
    rw [base, e0, e1, rwrAux_429 oracle 2 0 none _ _ r2 ho2 hr2,
      rwrAux_zero]
    exact ⟨rfl, rfl⟩
  · intro oracle r2 h0 h1 ho2 hr2
    obtain ⟨s0, le0, e0⟩ := rwrAux_nonterminal_step oracle 0 (1 + 1) none [] 0 h0 (by decide)
    obtain ⟨s1, le1, e1⟩ :=
      rwrAux_nonterminal_step oracle 1 (0 + 1) le0 ([] ++ [s0]) (0 + 1) h1 (by decide)
    have base : requestWithRetry oracle = rwrAux oracle 0 (2 + 1) none [] 0 := rfl
    rw [base, e0, e1, rwrAux_5xx_final oracle 2 0 le1 _ _ r2 ho2 hr2 (by decide)]
    exact ⟨rfl, rfl⟩
  · intro oracle e0 e1 e2 ho0 ho1 ho2
    have base : requestWithRetry oracle = rwrAux oracle 0 (2 + 1) none [] 0 := rfl
    rw [base, rwrAux_exn_retry oracle 0 (1 + 1) none [] 0 e0 ho0 (by decide),
      rwrAux_exn_retry oracle 1 (0 + 1) (some e0) _ _ e1 ho1 (by decide),
      rwrAux_exn_final oracle 2 0 (some e1) _ _ e2 ho2 (by decide),
      rwrAux_zero]
    exact ⟨rfl, rfl⟩

/-- C1 witness: the amended statement instantiated at concrete oracles —
all-429 responses, two 500s followed by a 503, and three timeouts. -/
theorem C1_witness :
    ((requestWithRetry fun _ =>
        AttemptResult.ok ⟨429, some 7, none, none, [], false⟩).result = Except.ok none ∧
      (requestWithRetry fun _ =>
        AttemptResult.ok ⟨429, some 7, none, none, [], false⟩).calls = 3) ∧
    ((requestWithRetry fun n =>
        AttemptResult.ok (if n = 2 then ⟨503, none, none, none, [], false⟩
          else ⟨500, none, none, none, [], false⟩)).result =
        Except.ok (some ⟨503, none, none, none, [], false⟩) ∧
      (requestWithRetry fun n =>
        AttemptResult.ok (if n = 2 then ⟨503, none, none, none, [], false⟩
          else ⟨500, none, none, none, [], false⟩)).calls = 3) ∧
    ((requestWithRetry fun _ =>
        AttemptResult.exn TransportError.timeout).result =
        Except.error TransportError.timeout ∧
      (requestWithRetry fun _ =>
        AttemptResult.exn TransportError.timeout).calls = 3) :=
  ⟨C1_theorem.1 _ _ _ _ rfl (Or.inl rfl) rfl (Or.inl rfl) rfl rfl,
   C1_theorem.2.1 _ ⟨503, none, none, none, [], false⟩
     (Or.inr (by decide)) (Or.inr (by decide)) rfl (by decide),
   C1_theorem.2.2 _ TransportError.timeout TransportError.timeout TransportError.timeout
     rfl rfl rfl⟩

/-- C4: when the first two attempts receive HTTP 500 and the third
receives HTTP 200, `_request_with_retry` returns the attempt-3 response;
it slept between consecutive attempts (`MAX_RETRIES - 1 = 2` sleeps), the
sleep durations are exactly `base^1, base^2 = 2, 4` seconds and hence
monotonically non-decreasing; and in general a 5xx response on the final
attempt is returned as-is to the caller rather than retried. -/
theorem C4_theorem :
    (∀ (oracle : Nat → AttemptResult) (r0 r1 r2 : HttpResponse),
        oracle 0 = AttemptResult.ok r0 → r0.status = 500 →
        oracle 1 = AttemptResult.ok r1 → r1.status = 500 →
        oracle 2 = AttemptResult.ok r2 → r2.status = 200 →
        (requestWithRetry oracle).result = Except.ok (some r2) ∧
        (requestWithRetry oracle).sleeps = [2, 4] ∧
        (requestWithRetry oracle).sleeps.length = MAX_RETRIES - 1 ∧
        List.Chain' (fun a b => a ≤ b) (requestWithRetry oracle).sleeps) ∧
    (∀ (oracle : Nat → AttemptResult) (r2 : HttpResponse),
        nonTerminal (oracle 0) → nonTerminal (oracle 1) →
        oracle 2 = AttemptResult.ok r2 → 500 ≤ r2.status →
        (requestWithRetry oracle).result = Except.ok (some r2)) := by
  constructor
  · intro oracle r0 r1 r2 ho0 hr0 ho1 hr1 ho2 hr2
    have base : requestWithRetry oracle = rwrAux oracle 0 (2 + 1) none [] 0 := rfl
    rw [base,
      rwrAux_5xx_retry oracle 0 (1 + 1) none [] 0 r0 ho0 (by omega) (by decide),
      rwrAux_5xx_retry oracle 1 (0 + 1) none _ _ r1 ho1 (by omega) (by decide),
      rwrAux_terminal oracle 2 0 none _ _ r2 ho2 (by omega) (by omega)]
    refine ⟨rfl, by simp [RETRY_BACKOFF_BASE], by simp [MAX_RETRIES], ?_⟩
    simp [RETRY_BACKOFF_BASE]
  · intro oracle r2 h0 h1 ho2 hr2
    obtain ⟨s0, le0, e0⟩ := rwrAux_nonterminal_step oracle 0 (1 + 1) none [] 0 h0 (by decide)
    obtain ⟨s1, le1, e1⟩ :=
      rwrAux_nonterminal_step oracle 1 (0 + 1) le0 ([] ++ [s0]) (0 + 1) h1 (by decide)
    have base : requestWithRetry oracle = rwrAux oracle 0 (2 + 1) none [] 0 := rfl
    rw [base, e0, e1, rwrAux_5xx_final oracle 2 0 le1 _ _ r2 ho2 hr2 (by decide)]

/-- C4 witness: the theorem instantiated at a concrete oracle answering
500, 500, 200, and one answering 502, 502, 502. -/
theorem C4_witness :
    ((requestWithRetry fun n =>
        AttemptResult.ok (if n = 2 then ⟨200, none, none, none, [], false⟩
          else ⟨500, none, none, none, [], false⟩)).result =
        Except.ok (some ⟨200, none, none, none, [], false⟩) ∧
      (requestWithRetry fun n =>
        AttemptResult.ok (if n = 2 then ⟨200, none, none, none, [], false⟩
          else ⟨500, none, none, none, [], false⟩)).sleeps = [2, 4] ∧
      (requestWithRetry fun n =>
        AttemptResult.ok (if n = 2 then ⟨200, none, none, none, [], false⟩
          else ⟨500, none, none, none, [], false⟩)).sleeps.length = MAX_RETRIES - 1 ∧
      List.Chain' (fun a b => a ≤ b)
        (requestWithRetry fun n =>
          AttemptResult.ok (if n = 2 then ⟨200, none, none, none, [], false⟩
            else ⟨500, none, none, none, [], false⟩)).sleeps) ∧
    (requestWithRetry fun _ =>
        AttemptResult.ok ⟨502, none, none, none, [], false⟩).result =
      Except.ok (some ⟨502, none, none, none, [], false⟩) :=
  ⟨C4_theorem.1 _ _ _ _ rfl rfl rfl rfl rfl rfl,
   C4_theorem.2 _ ⟨502, none, none, none, [], false⟩
     (Or.inr (by decide)) (Or.inr (by decide)) rfl (by decide)⟩

/-- C2: the code, evaluated at the claim's failing input.  The claim
(and the spec, and the repo's own test
`test_apply_to_vacancy_401_with_refresh_success`) says a 401 first
response triggers exactly one token renewal and one retry, succeeding on
a 201 retry within two HTTP calls.  In the source a 401
`requests.Response` is falsy, so `if not response:` returns the generic
could-not-send failure after one HTTP call: no renewal is attempted and
the 401 branch (and `refresh_access_token` from this path) is
unreachable, even though the renewal would succeed and the retry would
answer 201. -/
theorem C2_theorem :
    applyToVacancy (some "token") (some "resume")
        (fun _ => AttemptResult.ok ⟨401, none, none, none, [], false⟩) true
        (fun _ => AttemptResult.ok ⟨201, none, some "loc", none, [], false⟩) =
      { success := false, message := ApplyMsg.noResponse,
        negotiationUrl := none, negotiationCalls := 1,
        refreshCalls := 0, applyIssues := 1 } :=
  rfl

/-- C5: the code, evaluated at the claim's failing input.  The claim
(and the spec, the source's own `# Handle 409 Conflict - already applied`
branch, and the repo's test `test_apply_to_vacancy_409_already_applied`)
says a 409 apply response is reclassified as success.  In the source a
409 `requests.Response` is falsy, so `if not response:` returns the
generic could-not-send failure with `success = False`; the 409 →
already-applied-success branch is unreachable. -/
theorem C5_theorem :
    applyToVacancy (some "token") (some "resume")
        (fun _ => AttemptResult.ok ⟨409, none, none, none, [], false⟩) false
        (fun _ => AttemptResult.ok ⟨409, none, none, none, [], false⟩) =
      { success := false, message := ApplyMsg.noResponse,
        negotiationUrl := none, negotiationCalls := 1,
        refreshCalls := 0, applyIssues := 1 } :=
  rfl

/-- C6: when the refresh token is absent, or the OAuth client id or
client secret is not configured, `refresh_access_token` returns `False`
with no network call, leaving the stored tokens and the session
`Authorization` header unchanged. -/
theorem C6_theorem (cfg : OAuthConfig) (st : TokenState) (net : TokenNet)
    (h : st.refreshToken = none ∨ cfg.clientId = none ∨ cfg.clientSecret = none) :
    refreshAccessToken cfg st net = ⟨false, st, 0⟩ ∧
    (refreshAccessToken cfg st net).ok = false ∧
    (refreshAccessToken cfg st net).networkCalls = 0 ∧
    (refreshAccessToken cfg st net).st = st := by
  have hmain : refreshAccessToken cfg st net = ⟨false, st, 0⟩ := by
    cases hrt : st.refreshToken with
    | none => simp [refreshAccessToken, hrt]
    | some r =>
        rcases h with h | h
        · rw [hrt] at h; exact absurd h (by simp)
        · simp only [refreshAccessToken, hrt]
          rw [if_pos h]
  exact ⟨hmain, by rw [hmain], by rw [hmain], by rw [hmain]⟩

/-- C6 witness: unconfigured client credentials with a refresh token
present — failure, zero network calls, state untouched. -/
theorem C6_witness :
    refreshAccessToken ⟨none, none⟩ ⟨some "acc", some "ref", some "Bearer acc"⟩
        (TokenNet.resp 200 (some "new") (some "newref")) =
      ⟨false, ⟨some "acc", some "ref", some "Bearer acc"⟩, 0⟩ :=
  (C6_theorem ⟨none, none⟩ ⟨some "acc", some "ref", some "Bearer acc"⟩
    (TokenNet.resp 200 (some "new") (some "newref")) (Or.inr (Or.inl rfl))).1

/-- C7: `get_preferences` for a subscriber with no preferences row
returns the defaults dict — `role_domain = "IT"`, empty keyword list,
minimum salary 0 — without raising (`getPreferences` is total), so callers
need no existence check. -/
theorem C7_theorem (db : PrefDB) (cid : Int) (h : prefLookup db cid = none) :
    getPreferences db cid = defaultPreferences cid ∧
    (getPreferences db cid).role_domain = "IT" ∧
    (getPreferences db cid).keywords = [] ∧
    (getPreferences db cid).salary_min = 0 := by
  have hg : getPreferences db cid = defaultPreferences cid := by
    simp [getPreferences, h]
  rw [hg]
  exact ⟨rfl, rfl, rfl, rfl⟩

/-- C7 witness: the empty store and a never-seen subscriber id. -/
theorem C7_witness :
    getPreferences [] 42 = defaultPreferences 42 ∧
    (getPreferences [] 42).role_domain = "IT" ∧
    (getPreferences [] 42).keywords = [] ∧
    (getPreferences [] 42).salary_min = 0 :=
  C7_theorem [] 42 rfl

/-- C8: the per-subscriber poll loop visits every monitoring-enabled
subscriber in sequence; a subscriber whose check raises is recorded
(logged) and the loop continues unchanged with the rest — the result is
exactly the independent per-subscriber outcomes, so no single failure
aborts the cycle. -/
theorem C8_theorem (users : List Int) (f : Int → Except String Unit) :
    (checkAllUsersVacancies users f).map Prod.fst = users ∧
    checkAllUsersVacancies users f =
      users.map (fun u => (u,
        match f u with
        | Except.ok _ => none
        | Except.error e => some e)) ∧
    (∀ u rest, checkAllUsersVacancies (u :: rest) f =
      (u, match f u with
          | Except.ok _ => none
          | Except.error e => some e) :: checkAllUsersVacancies rest f) := by
  have hmap : checkAllUsersVacancies users f =
      users.map (fun u => (u,
        match f u with
        | Except.ok _ => none
        | Except.error e => some e)) := by
    induction users with
    | nil => rfl
    | cons u rest ih =>
        cases hf : f u with
        | ok v => cases v; simp [checkAllUsersVacancies, hf, ih]
        | error e => simp [checkAllUsersVacancies, hf, ih]
  refine ⟨?_, hmap, ?_⟩
  · rw [hmap, List.map_map]
    simp [Function.comp_def]
  · intro u rest
    cases hf : f u with
    | ok v => cases v; simp [checkAllUsersVacancies, hf]
    | error e => simp [checkAllUsersVacancies, hf]

/-- If a key has no row, `prefLookup` finds no matching pair. -/
theorem prefLookup_none_forall (db : PrefDB) (cid : Int)
    (h : prefLookup db cid = none) : ∀ p ∈ db, p.1 ≠ cid := by
  induction db with
  | nil => intro p hp; simp at hp
  | cons q rest ih =>
      rcases q with ⟨c, row⟩
      by_cases hc : c = cid
      · simp [prefLookup, hc] at h
      · simp only [prefLookup, hc, if_false] at h
        intro p hp
        rcases List.mem_cons.1 hp with hp | hp
        · subst hp; exact hc
        · exact ih h p hp

/-- An `UPDATE ... WHERE chat_id = ?` matching no row leaves the table
unchanged. -/
theorem updatePreferences_not_found (db : PrefDB) (cid : Int) (u : PrefUpdate)
    (h : prefLookup db cid = none) : updatePreferences db cid u = db := by
  induction db with
  | nil => rfl
  | cons q rest ih =>
      rcases q with ⟨c, row⟩
      by_cases hc : c = cid
      · simp [prefLookup, hc] at h
      · simp only [prefLookup, hc, if_false] at h
        simp only [updatePreferences, List.map_cons, hc, if_false]
        have := ih h
        simp only [updatePreferences] at this
        rw [this]

/-- Running `prefLookup` after `updatePreferences` finds the merged row. -/
theorem prefLookup_update (db : PrefDB) (cid : Int) (u : PrefUpdate) :
    prefLookup (updatePreferences db cid u) cid =
      (prefLookup db cid).map (fun row => applyUpdate row u) := by
  induction db with
  | nil => rfl
  | cons q rest ih =>
      rcases q with ⟨c, row⟩
      by_cases hc : c = cid
      · subst hc
        simp only [updatePreferences, List.map_cons]
        split
        · simp [prefLookup]
        · simp_all
      · simp only [updatePreferences, List.map_cons, hc, if_false]
        simp only [prefLookup, hc, if_false]
        simpa [updatePreferences] using ih

/-- C9: `update_preferences` for a subscriber with no preferences row
updates zero rows and creates none — the partial update is silently
lost and a subsequent `get_preferences` still returns the pure defaults;
the partial merge (only supplied fields change) takes effect exactly for
subscribers whose row exists. -/
theorem C9_theorem (db : PrefDB) (cid : Int) (u : PrefUpdate)
    (h : prefLookup db cid = none) :
    updatePreferences db cid u = db ∧
    getPreferences (updatePreferences db cid u) cid = defaultPreferences cid ∧
    (∀ (db2 : PrefDB) (row : PrefRow), prefLookup db2 cid = some row →
      prefLookup (updatePreferences db2 cid u) cid = some (applyUpdate row u)) := by
  refine ⟨updatePreferences_not_found db cid u h, ?_, ?_⟩
  · rw [updatePreferences_not_found db cid u h]
    simp [getPreferences, h]
  · intro db2 row hrow
    rw [prefLookup_update db2 cid u, hrow]
    rfl

/-- C9 witness: a salary-only partial update for an absent subscriber is
lost; the same update merges into an existing default row. -/
theorem C9_witness :
    updatePreferences [] 7 { salary_min := some 100 } = [] ∧
    getPreferences (updatePreferences [] 7 { salary_min := some 100 }) 7 =
      defaultPreferences 7 ∧
    prefLookup (updatePreferences [(7, {})] 7 { salary_min := some 100 }) 7 =
      some (applyUpdate {} { salary_min := some 100 }) := by
  obtain ⟨h1, h2, h3⟩ := C9_theorem [] 7 { salary_min := some 100 } rfl
  exact ⟨h1, h2, h3 [(7, {})] {} rfl⟩

/-- A found row is still found after appending rows. -/
theorem prefLookup_append_of_some (l1 l2 : PrefDB) (c : Int) (r : PrefRow)
    (h : prefLookup l1 c = some r) : prefLookup (l1 ++ l2) c = some r := by
  induction l1 with
  | nil => simp [prefLookup] at h
  | cons q rest ih =>
      rcases q with ⟨c0, row0⟩
      by_cases hc : c0 = c
      · simp only [prefLookup, hc, if_true] at h
        simp [prefLookup, hc, h]
      · simp only [prefLookup, hc, if_false] at h
        simp [prefLookup, hc, ih h]

/-- Looking up past rows with no matching key searches the appended rows. -/
theorem prefLookup_append_of_none (l1 l2 : PrefDB) (c : Int)
    (h : prefLookup l1 c = none) : prefLookup (l1 ++ l2) c = prefLookup l2 c := by
  induction l1 with
  | nil => simp
  | cons q rest ih =>
      rcases q with ⟨c0, row0⟩
      by_cases hc : c0 = c
      · simp [prefLookup, hc] at h
      · simp only [prefLookup, hc, if_false] at h
        simp [prefLookup, hc, ih h]

/-- Appending a matching user row and a preferences row for the same key
preserves the users-have-preferences invariant. -/
theorem usersHavePrefs_insert (s : DBState) (cid : Int) (uname : Option String)
    (row : PrefRow) (hinv : usersHavePrefs s) :
    usersHavePrefs ⟨s.users ++ [(cid, uname)], s.prefs ++ [(cid, row)]⟩ := by
  intro p hp
  simp only at hp ⊢
  rcases List.mem_append.1 hp with hp | hp
  · have hs := hinv p hp
    obtain ⟨r, hr⟩ := Option.isSome_iff_exists.1 hs
    rw [prefLookup_append_of_some s.prefs [(cid, row)] p.1 r hr]
    rfl
  · have hp1 : p.1 = cid := by
      rcases List.mem_singleton.1 hp with h
      rw [h]
    cases hl : prefLookup s.prefs p.1 with
    | some r =>
        rw [prefLookup_append_of_some s.prefs [(cid, row)] p.1 r hl]
        rfl
    | none =>
        rw [prefLookup_append_of_none s.prefs [(cid, row)] p.1 hl, hp1]
        simp [prefLookup]

/-- C10: `get_or_create_user` preserves the invariant that every user row
has a preferences row.  For an existing subscriber nothing is inserted;
for a new subscriber the user row and the default preferences row are
committed together, and any exception in the connection-scoped
transaction rolls both back, so the result state is always either the
original state or the original state with exactly the two rows added. -/
theorem C10_theorem (failAt : Option Nat) (s : DBState) (cid : Int)
    (uname : Option String) (hinv : usersHavePrefs s) :
    usersHavePrefs (getOrCreateUser failAt s cid uname).1 ∧
    ((getOrCreateUser failAt s cid uname).2 = Except.error () →
      (getOrCreateUser failAt s cid uname).1 = s) ∧
    (userLookup s.users cid ≠ none → (getOrCreateUser failAt s cid uname).1 = s) ∧
    ((getOrCreateUser failAt s cid uname).1 = s ∨
      ((getOrCreateUser failAt s cid uname).1.users = s.users ++ [(cid, uname)] ∧
       (getOrCreateUser failAt s cid uname).1.prefs = s.prefs ++ [(cid, ({} : PrefRow))] ∧
       userLookup s.users cid = none)) := by
  by_cases h0 : failAt = some 0
  · refine ⟨?_, ?_, ?_, ?_⟩ <;> simp only [getOrCreateUser, h0, if_true] <;> simp [hinv]
  · cases hu : userLookup s.users cid with
    | some un =>
        by_cases h4 : failAt = some 4 <;>
          (refine ⟨?_, ?_, ?_, ?_⟩ <;>
            simp only [getOrCreateUser, h0, if_false, hu, h4, if_true] <;> simp [hinv])
    | none =>
        by_cases h1 : failAt = some 1
        · refine ⟨?_, ?_, ?_, ?_⟩ <;>
            simp only [getOrCreateUser, h0, if_false, hu, h1, if_true] <;> simp [hinv, hu]
        · by_cases h2 : failAt = some 2
          · refine ⟨?_, ?_, ?_, ?_⟩ <;>
              simp only [getOrCreateUser, h0, if_false, hu, h1, h2, if_true] <;>
              simp [hinv, hu]
          · by_cases h3 : failAt = some 3
            · refine ⟨?_, ?_, ?_, ?_⟩ <;>
                simp only [getOrCreateUser, h0, if_false, hu, h1, h2, h3, if_true] <;>
                simp [hinv, hu]
            · by_cases h4 : failAt = some 4
              · refine ⟨?_, ?_, ?_, ?_⟩ <;>
                  simp only [getOrCreateUser, h0, if_false, hu, h1, h2, h3, h4, if_true] <;>
                  simp [hinv, hu]
              · refine ⟨?_, ?_, ?_, ?_⟩ <;>
                  simp only [getOrCreateUser, h0, if_false, hu, h1, h2, h3, h4]
                · exact usersHavePrefs_insert s cid uname {} hinv
                · intro h; simp at h
                · intro h; exact absurd rfl h
                · exact Or.inr ⟨trivial, trivial, trivial⟩

/-- C10 witness: creating a fresh subscriber in the empty store commits
both rows; the invariant holds for the result. -/
theorem C10_witness :
    usersHavePrefs (getOrCreateUser none ⟨[], []⟩ 1 (some "u")).1 ∧
    ((getOrCreateUser none ⟨[], []⟩ 1 (some "u")).1 = (⟨[], []⟩ : DBState) ∨
      ((getOrCreateUser none ⟨[], []⟩ 1 (some "u")).1.users = [] ++ [(1, some "u")] ∧
       (getOrCreateUser none ⟨[], []⟩ 1 (some "u")).1.prefs = [] ++ [(1, ({} : PrefRow))] ∧
       userLookup [] 1 = none)) := by
  obtain ⟨hA10, -, -, hb⟩ := C10_theorem none ⟨[], []⟩ 1 (some "u")
    (by intro p hp; simp at hp)
  exact ⟨hA10, hb⟩

/-- The inserted pair is a member after `markVacancySent`. -/
theorem mem_markVacancySent_self (db : PairDB) (cid : Int) (vid : String) :
    (cid, vid) ∈ markVacancySent db cid vid := by
  unfold markVacancySent
  split
  · assumption
  · simp

/-- Inserting via `markVacancySent` never removes rows. -/
theorem mem_markVacancySent_mono (db : PairDB) (c : Int) (v : String)
    (q : Int × String) (h : q ∈ db) : q ∈ markVacancySent db c v := by
  unfold markVacancySent
  split
  · exact h
  · exact List.mem_append_left _ h

/-- Replaying inserts never removes rows. -/
theorem mem_runMarks_mono (ops : List (Int × String)) :
    ∀ (db : PairDB) (q : Int × String), q ∈ db → q ∈ runMarks db ops := by
  induction ops with
  | nil => intro db q h; exact h
  | cons p rest ih =>
      intro db q h
      exact ih _ q (mem_markVacancySent_mono db p.1 p.2 q h)

/-- A row present after replaying inserts was present before or was one
of the inserted pairs. -/
theorem mem_runMarks_elim (ops : List (Int × String)) :
    ∀ (db : PairDB) (q : Int × String), q ∈ runMarks db ops → q ∈ db ∨ q ∈ ops := by
  induction ops with
  | nil => intro db q h; exact Or.inl h
  | cons p rest ih =>
      intro db q h
      have h' : q ∈ runMarks (markVacancySent db p.1 p.2) rest := h
      rcases ih (markVacancySent db p.1 p.2) q h' with h2 | h2
      · unfold markVacancySent at h2
        by_cases hm : (p.1, p.2) ∈ db
        · rw [if_pos hm] at h2
          exact Or.inl h2
        · rw [if_neg hm] at h2
          rcases List.mem_append.1 h2 with h3 | h3
          · exact Or.inl h3
          · rcases List.mem_singleton.1 h3 with h4
            right
            rw [h4]
            simp
      · exact Or.inr (List.mem_cons_of_mem _ h2)

/-- Every inserted pair is a member after replaying the inserts. -/
theorem mem_runMarks_of_mem_ops (ops : List (Int × String)) :
    ∀ (db : PairDB) (q : Int × String), q ∈ ops → q ∈ runMarks db ops := by
  induction ops with
  | nil => intro db q h; simp at h
  | cons p rest ih =>
      intro db q h
      rcases List.mem_cons.1 h with h2 | h2
      · subst h2
        exact mem_runMarks_mono rest _ q (mem_markVacancySent_self db q.1 q.2)
      · exact ih _ q h2

/-- Inserting via `markVacancySent` keeps at most one row per pair. -/
theorem rowCount_mark_le (db : PairDB) (c : Int) (v : String) (cid : Int)
    (vid : String) (h : rowCount db cid vid ≤ 1) :
    rowCount (markVacancySent db c v) cid vid ≤ 1 := by
  unfold markVacancySent
  split
  · exact h
  · rename_i hnm
    unfold rowCount at h ⊢
    rw [List.countP_append]
    by_cases he : (c, v) = (cid, vid)
    · have h0 : List.countP (fun p => decide (p = (cid, vid))) db = 0 := by
        rw [List.countP_eq_zero]
        intro a ha
        simp only [decide_eq_true_eq]
        intro hav
        rw [← he] at hav
        exact hnm (hav ▸ ha)
      rw [h0]
      simp [he]
    · have h1 : List.countP (fun p => decide (p = (cid, vid))) [(c, v)] = 0 := by
        rw [List.countP_eq_zero]
        intro a ha
        rcases List.mem_singleton.1 ha with h4
        simp only [decide_eq_true_eq, h4]
        exact he
      rw [h1]
      omega

/-- Replaying inserts keeps at most one row per pair. -/
theorem rowCount_runMarks_le (ops : List (Int × String)) :
    ∀ (db : PairDB) (cid : Int) (vid : String), rowCount db cid vid ≤ 1 →
      rowCount (runMarks db ops) cid vid ≤ 1 := by
  induction ops with
  | nil => intro db cid vid h; exact h
  | cons p rest ih =>
      intro db cid vid h
      exact ih _ cid vid (rowCount_mark_le db p.1 p.2 cid vid h)

/-- C3: seen-set semantics and their use by the polling engine.  Starting
from the empty store, `is_vacancy_sent` is false for a pair until
`mark_vacancy_sent` has been called for that exact pair and true from
then on (stable under further inserts); a duplicate insert is a no-op
(idempotent, and every replayed history leaves at most one row per
pair); and the dedup step of `check_user_vacancies` dispatches exactly
the postings whose pair is not in the seen set, marking each dispatched
posting seen. -/
theorem C3_theorem (cid : Int) (vid : String) (ops : List (Int × String))
    (db : PairDB) (vs : List Vacancy) (hops : (cid, vid) ∉ ops) :
    isVacancySent (runMarks [] ops) cid vid = false ∧
    (∀ (db2 : PairDB) (ops2 : List (Int × String)),
      isVacancySent (runMarks (markVacancySent db2 cid vid) ops2) cid vid = true) ∧
    markVacancySent (markVacancySent db cid vid) cid vid = markVacancySent db cid vid ∧
    rowCount (runMarks [] ops) cid vid ≤ 1 ∧
    (∀ v ∈ (checkUserVacancies db cid vs).1,
      isVacancySent db cid v.id = false ∧
      isVacancySent (checkUserVacancies db cid vs).2 cid v.id = true) ∧
    (∀ v ∈ vs, isVacancySent db cid v.id = true → v ∉ (checkUserVacancies db cid vs).1) := by
  refine ⟨?_, ?_, ?_, ?_, ?_, ?_⟩
  · rw [isVacancySent, decide_eq_false_iff_not]
    intro hmem
    rcases mem_runMarks_elim ops [] (cid, vid) hmem with h | h
    · simp at h
    · exact hops h
  · intro db2 ops2
    rw [isVacancySent, decide_eq_true_eq]
    exact mem_runMarks_mono ops2 _ (cid, vid) (mem_markVacancySent_self db2 cid vid)
  · exact if_pos (mem_markVacancySent_self db cid vid)
  · exact rowCount_runMarks_le ops [] cid vid (by simp [rowCount])
  · intro v hv
    have hfoldl : (checkUserVacancies db cid vs).2 =
        runMarks db ((vs.filter fun v => !(isVacancySent db cid v.id)).map
          fun v => (cid, v.id)) := by
      simp [checkUserVacancies, runMarks, List.foldl_map]
    have hv2 := hv
    simp only [checkUserVacancies] at hv2
    have hfilt := List.mem_filter.1 hv2
    constructor
    · simpa using hfilt.2
    · rw [hfoldl, isVacancySent, decide_eq_true_eq]
      exact mem_runMarks_of_mem_ops _ db (cid, v.id)
        (List.mem_map.2 ⟨v, hv2, rfl⟩)
  · intro v hv hsent
    intro hmem
    simp only [checkUserVacancies] at hmem
    have := (List.mem_filter.1 hmem).2
    rw [hsent] at this
    simp at this

/-- C3 witness: a pair unseen in a fresh store after unrelated inserts,
seen after its own insert; an idempotent second insert; and the dedup
filter dispatching exactly the one unseen posting of three. -/
theorem C3_witness :
    isVacancySent (runMarks [] [(2, "a"), (2, "b")]) 1 "a" = false ∧
    (isVacancySent (runMarks (markVacancySent [] 1 "a") []) 1 "a" = true) ∧
    markVacancySent (markVacancySent [(5, "x")] 1 "a") 1 "a" =
      markVacancySent [(5, "x")] 1 "a" ∧
    rowCount (runMarks [] [(2, "a"), (2, "b")]) 1 "a" ≤ 1 ∧
    (∀ v ∈ (checkUserVacancies [(1, "v1"), (1, "v2")] 1 [⟨"v1"⟩, ⟨"v2"⟩, ⟨"v3"⟩]).1,
      isVacancySent [(1, "v1"), (1, "v2")] 1 v.id = false ∧
      isVacancySent (checkUserVacancies [(1, "v1"), (1, "v2")] 1
        [⟨"v1"⟩, ⟨"v2"⟩, ⟨"v3"⟩]).2 1 v.id = true) := by
  obtain ⟨h1, h2, -, h4, -, -⟩ :=
    C3_theorem 1 "a" [(2, "a"), (2, "b")] [(5, "x")] [] (by decide)
  obtain ⟨-, -, h3, -, -, -⟩ :=
    C3_theorem 1 "a" [] [(5, "x")] [] (by decide)
  obtain ⟨-, -, -, -, h5b, -⟩ :=
    C3_theorem 1 "v0" [] [(1, "v1"), (1, "v2")] [⟨"v1"⟩, ⟨"v2"⟩, ⟨"v3"⟩] (by decide)
  exact ⟨h1, h2 [] [], h3, h4, h5b⟩

end HHBot
